import Mathlib

/-!
Verification of the `smallsh` shell (gregmankes/cs344-project3) against its
natural-language specification.  The C sources `src/smallsh.c` and
`src/unnamed/part_000` are shallowly embedded below: the tokenizer models
`strtok(input, " \n")`, the parse loop models the `while(tok != NULL)` loop of
`run_shell`, `get_status` models the status renderer, and the process-level
behavior (fork, waitpid, exit) is modelled as a deterministic trace function
over an OS oracle (`IterEnv`) that supplies fork results, foreground wait
statuses and the observable states of background children.

Undefined behavior in the C source (`strcpy` from a NULL `strtok` result when
a redirect operator is the last token) is modelled as `none` / `Action.crash`:
the parse does not produce a command and the shell does not continue normally.
-/

namespace Smallsh

/-- Delimiters of `strtok(input, " \n")` in `run_shell`. -/
def isDelim (c : Char) : Bool := c = ' ' || c = '\n'

/-- Accumulating tokenizer: models successive `strtok` calls with
delimiters `" \n"`, which return the maximal nonempty runs of
non-delimiter characters. -/
def tokenizeAux : List Char → List Char → List String
  | [], cur => if cur.isEmpty then [] else [String.mk cur.reverse]
  | c :: cs, cur =>
    if isDelim c then
      if cur.isEmpty then tokenizeAux cs [] else String.mk cur.reverse :: tokenizeAux cs []
    else
      tokenizeAux cs (c :: cur)

/-- The token sequence `strtok` yields for an input line. -/
def tokenize (s : String) : List String := tokenizeAux s.data []

/-- The data produced by the parse loop of `run_shell`: the command array,
the two redirect filename buffers (`""` means the buffer was left empty,
i.e. no redirect), and the `fg` flag (`fg = true` means foreground, so the
spec's `background` is `!fg`). -/
structure CommandSpec where
  argv : List String
  input_filename : String
  output_filename : String
  fg : Bool
deriving DecidableEq, Repr

/-- The spec's `background` flag of a command: the negation of the source's
`fg` variable. -/
def CommandSpec.background (s : CommandSpec) : Bool := !s.fg

/-- The `while(tok != NULL)` loop of `run_shell` (lines 207-227 of
`src/smallsh.c`).  `>` consumes the next token into `output_filename`, `<`
consumes the next token into `input_filename`, `&` clears `fg` and breaks,
anything else is copied into the command array.  When `>` or `<` is the last
token, the source executes `strcpy(buffer, NULL)` — undefined behavior —
modelled as `none`. -/
def parse_tokens : List String → String → String → List String → Option CommandSpec
  | [], outF, inF, cmds => some ⟨cmds, inF, outF, true⟩
  | tok :: rest, outF, inF, cmds =>
    if tok = ">" then
      match rest with
      | [] => none
      | f :: rest2 => parse_tokens rest2 f inF cmds
    else if tok = "<" then
      match rest with
      | [] => none
      | f :: rest2 => parse_tokens rest2 outF f cmds
    else if tok = "&" then
      some ⟨cmds, inF, outF, false⟩
    else
      parse_tokens rest outF inF (cmds ++ [tok])

/-- Parse one input line the way one iteration of `run_shell` does: the
filename buffers are zeroed (`memset`) before each line, and `fg` starts
at `1`. -/
def parse_line (line : String) : Option CommandSpec :=
  parse_tokens (tokenize line) "" "" []

/-- What `run_shell` decides to do with a parsed line (the `if`/`else if`
chain on `commands[0]`, lines 234-260 of `src/smallsh.c`). -/
inductive Action where
  | crash
  | ignore
  | cd (argv : List String)
  | statusCmd
  | exitCmd
  | launch (spec : CommandSpec)
deriving DecidableEq, Repr

/-- The dispatch of `run_shell`: an empty command array (`commands[0]` still
`""` after the `memset`) or a first command starting with `#` is ignored;
`cd`, `status` and `exit` are built-ins; everything else goes to
`handle_fork_exec`.  A parse that hit undefined behavior is `crash`. -/
def classify_line (line : String) : Action :=
  match parse_line line with
  | none => Action.crash
  | some spec =>
    match spec.argv with
    | [] => Action.ignore
    | c :: _ =>
      if c.front = '#' then Action.ignore
      else if c = "cd" then Action.cd spec.argv
      else if c = "status" then Action.statusCmd
      else if c = "exit" then Action.exitCmd
      else Action.launch spec

/-- glibc `WIFEXITED`: the low seven bits of the wait status are zero. -/
def WIFEXITED (s : Nat) : Bool := s % 128 == 0

/-- glibc `WEXITSTATUS`: bits 8-15 of the wait status. -/
def WEXITSTATUS (s : Nat) : Nat := s / 256 % 256

/-- glibc `WTERMSIG`: the low seven bits of the wait status, the number of
the terminating signal. -/
def WTERMSIG (s : Nat) : Nat := s % 128

/-- `get_status` (lines 127-137 of `src/smallsh.c`): the lines it prints for
a stored wait status.  Note the signal branch prints the raw `*status`
value, not `WTERMSIG(*status)`. -/
def get_status (status : Nat) : List String :=
  if WIFEXITED status then
    ["The process exited normally", "The exit status was " ++ toString (WEXITSTATUS status)]
  else
    ["The process was terminated by a signal " ++ toString status]

/-- The observable state of a child process at the moment the shell calls
`waitpid`: still running, or terminated with a wait status not yet reaped
(a zombie). -/
inductive ChildState where
  | running
  | zombie (st : Nat)
deriving DecidableEq, Repr

/-- `wait_for_children` (lines 22-29 of `src/smallsh.c`): the
`waitpid(-1, status, WNOHANG)` loop.  Each call reaps one zombie, prints
`"Background process %d closed"`, prints `get_status` of the reaped status
(overwriting the stored status), and loops; as soon as no zombie is
available the loop ends — still-running children are NOT waited for.
Returns the final stored status, the children left un-reaped, and the
printed lines. -/
def wait_for_children (status : Nat) :
    List (Nat × ChildState) → Nat × List (Nat × ChildState) × List String
  | [] => (status, [], [])
  | (pid, ChildState.running) :: rest =>
    let r := wait_for_children status rest
    (r.1, (pid, ChildState.running) :: r.2.1, r.2.2)
  | (pid, ChildState.zombie st) :: rest =>
    let r := wait_for_children st rest
    (r.1, r.2.1,
      ("Background process " ++ toString pid ++ " closed") :: (get_status st ++ r.2.2))

/-- `exit_shell` (lines 113-116 of `src/smallsh.c`): calls
`wait_for_children(status)` and then `exit(*status)`.  Returns the exit
code, the children left outstanding (orphans), and the printed lines. -/
def exit_shell (status : Nat) (children : List (Nat × ChildState)) :
    Nat × List (Nat × ChildState) × List String :=
  wait_for_children status children

/-- The `pid < 0` branch of `handle_fork_exec` (lines 93-98 of
`src/smallsh.c`): print `"error in fork"`, set `*status = 1`, then
`exit_shell(status)`. -/
def handle_fork_fail (children : List (Nat × ChildState)) :
    Nat × List (Nat × ChildState) × List String :=
  let r := exit_shell 1 children
  (r.1, r.2.1, "error in fork" :: r.2.2)

/-- The `to_open` pointer of the child branch of `handle_fork_exec`
(lines 40-50 of `src/smallsh.c`): in the foreground, the input file when one
was named, else `NULL` (input inherited); in the background, always
`"/dev/null"`, whatever `input_filename` holds.  `none` models `NULL`,
i.e. input left as inherited from the shell. -/
def to_open (fg : Bool) (input_filename : String) : Option String :=
  if fg then
    if input_filename ≠ "" then some input_filename else none
  else
    some "/dev/null"

/-- Oracle for the child's file-descriptor calls: whether `open` succeeds on
a path and whether `dup2` onto a target descriptor succeeds. -/
structure FileOps where
  open_ok : String → Bool
  dup2_ok : Nat → Bool

/-- The input-redirection phase of the child (lines 51-67 of
`src/smallsh.c`): if `to_open` is `NULL` nothing is done; otherwise the file
is opened read-only and `dup2`-ed onto descriptor 0, and a failure of either
call makes the child print an error and `exit(1)` (`Except.error 1`).  On
success the child's standard input comes from the returned path (`none` =
inherited). -/
def child_setup_input (fg : Bool) (input_filename : String) (ops : FileOps) :
    Except Nat (Option String) :=
  match to_open fg input_filename with
  | none => Except.ok none
  | some path =>
    if ops.open_ok path then
      if ops.dup2_ok 0 then Except.ok (some path)
      else Except.error 1
    else Except.error 1

/-- Observable events of a shell run: the prompt, a successful fork, the
blocking foreground `waitpid(pid, &status, 0)`, a printed line, and process
exit.  `crashed` marks the undefined behavior of a trailing redirect
operator. -/
inductive Event where
  | prompt
  | forkedChild (pid : Nat)
  | fgWait (pid : Nat) (st : Nat)
  | printed (s : String)
  | exited (code : Nat)
  | crashed
deriving DecidableEq, Repr

/-- OS oracle for one iteration of the shell loop: the pid `fork` returns,
whether `fork` succeeds, the wait status the blocking foreground `waitpid`
reports, and the states of the background children visible to
`waitpid(-1, ..., WNOHANG)` during this iteration. -/
structure IterEnv where
  pid : Nat
  forkOk : Bool
  fgStatus : Nat
  osChildren : List (Nat × ChildState)

/-- Result of one iteration of the `while(1)` loop of `run_shell`: either
the loop continues with a new stored status, or the shell process stops
(exit or crash). -/
inductive IterOutcome where
  | next (status : Nat) (events : List Event)
  | stop (events : List Event)
deriving DecidableEq, Repr

/-- The events of an iteration outcome. -/
def iter_events : IterOutcome → List Event
  | IterOutcome.next _ evs => evs
  | IterOutcome.stop evs => evs

/-- The tail of every continuing iteration: `wait_for_children(&status)`
(line 262 of `src/smallsh.c`), appended after the iteration's own events. -/
def iter_reap (status : Nat) (env : IterEnv) (evs : List Event) : IterOutcome :=
  let r := wait_for_children status env.osChildren
  IterOutcome.next r.1 (evs ++ r.2.2.map Event.printed)

/-- One iteration of the `while(1)` loop of `run_shell` (lines 200-268 of
`src/smallsh.c`), after the prompt: parse and dispatch the line, then poll
background children.  The foreground branch of `handle_fork_exec` performs
the blocking `waitpid(pid, status, 0)` and stores its result; the
background branch prints the pid; `fork` failure and `exit` go through
`exit_shell`. -/
def run_iter (status : Nat) (line : String) (env : IterEnv) : IterOutcome :=
  match classify_line line with
  | Action.crash => IterOutcome.stop [Event.crashed]
  | Action.ignore => iter_reap status env []
  | Action.cd _ => iter_reap status env []
  | Action.statusCmd => iter_reap status env ((get_status status).map Event.printed)
  | Action.exitCmd =>
    let r := exit_shell status env.osChildren
    IterOutcome.stop (r.2.2.map Event.printed ++ [Event.exited r.1])
  | Action.launch spec =>
    if env.forkOk then
      if spec.fg then
        iter_reap env.fgStatus env
          [Event.forkedChild env.pid, Event.fgWait env.pid env.fgStatus]
      else
        iter_reap status env
          [Event.forkedChild env.pid,
           Event.printed ("background process id number " ++ toString env.pid)]
    else
      let r := handle_fork_fail env.osChildren
      IterOutcome.stop (r.2.2.map Event.printed ++ [Event.exited r.1])

/-- The full shell loop over a sequence of input lines with their OS
oracles.  `prompt()` runs at the top of each iteration; when input is
exhausted, `fgets` returns `NULL` and `prompt` calls `exit(0)`
(line 122 of `src/smallsh.c`). -/
def run_shell_events (status : Nat) : List (String × IterEnv) → List Event
  | [] => [Event.prompt, Event.exited 0]
  | (line, env) :: rest =>
    match run_iter status line env with
    | IterOutcome.next s evs => (Event.prompt :: evs) ++ run_shell_events s rest
    | IterOutcome.stop evs => Event.prompt :: evs

/-- The status of the last zombie in the child list, if any: the value the
`WNOHANG` reaping loop leaves in the stored status. -/
def last_zombie_status : List (Nat × ChildState) → Option Nat
  | [] => none
  | (_, ChildState.zombie st) :: rest => some ((last_zombie_status rest).getD st)
  | (_, ChildState.running) :: rest => last_zombie_status rest

/-! ### The second copy of the shell, `src/unnamed/part_000`

`part_000` is a commented copy of `smallsh.c` whose code differs in exactly
three places of `handle_fork_exec`: the mode of the output file
(`0644` instead of `0744`, line 100), a `get_status(status)` call after the
blocking foreground `waitpid` (line 139), and the capitalization of the
background-launch report (line 143).  The parse loop and the status renderer
are re-embedded below to compare the two. -/

/-- The parse loop of `run_shell` in `src/unnamed/part_000`
(lines 312-347), token for token the same algorithm as in
`src/smallsh.c`. -/
def parse_tokens_v2 : List String → String → String → List String → Option CommandSpec
  | [], outF, inF, cmds => some ⟨cmds, inF, outF, true⟩
  | tok :: rest, outF, inF, cmds =>
    if tok = ">" then
      match rest with
      | [] => none
      | f :: rest2 => parse_tokens_v2 rest2 f inF cmds
    else if tok = "<" then
      match rest with
      | [] => none
      | f :: rest2 => parse_tokens_v2 rest2 outF f cmds
    else if tok = "&" then
      some ⟨cmds, inF, outF, false⟩
    else
      parse_tokens_v2 rest outF inF (cmds ++ [tok])

/-- Line parsing in `src/unnamed/part_000`. -/
def parse_line_v2 (line : String) : Option CommandSpec :=
  parse_tokens_v2 (tokenize line) "" "" []

/-- `get_status` of `src/unnamed/part_000` (lines 185-197), identical to the
one in `src/smallsh.c`. -/
def get_status_v2 (status : Nat) : List String :=
  if WIFEXITED status then
    ["The process exited normally", "The exit status was " ++ toString (WEXITSTATUS status)]
  else
    ["The process was terminated by a signal " ++ toString status]

/-- Mode argument of `open(output_filename, O_WRONLY|O_CREAT|O_TRUNC, ...)`
in `src/smallsh.c`, line 69. -/
def output_open_mode : Nat := 0o744

/-- Mode argument of the same `open` call in `src/unnamed/part_000`,
line 100. -/
def output_open_mode_v2 : Nat := 0o644

/-- What the parent prints right after the blocking foreground `waitpid` in
`src/smallsh.c` (lines 102-104): nothing. -/
def fg_wait_report (_st : Nat) : List String := []

/-- What the parent prints right after the blocking foreground `waitpid` in
`src/unnamed/part_000` (lines 137-140): `get_status(status)`. -/
def fg_wait_report_v2 (st : Nat) : List String := get_status_v2 st

/-- The background-launch report of `src/smallsh.c`, line 107. -/
def bg_launch_report (pid : Nat) : String :=
  "background process id number " ++ toString pid

/-- The background-launch report of `src/unnamed/part_000`, line 143. -/
def bg_launch_report_v2 (pid : Nat) : String :=
  "Background process id number " ++ toString pid

/-! ### Helper lemmas -/

/-- Defining equation of `parse_tokens` on an empty token list. -/
theorem parse_tokens_nil (outF inF : String) (cmds : List String) :
    parse_tokens [] outF inF cmds = some ⟨cmds, inF, outF, true⟩ := rfl

/-- Defining equation of `parse_tokens` on a nonempty token list. -/
theorem parse_tokens_cons (tok : String) (rest : List String) (outF inF : String)
    (cmds : List String) :
    parse_tokens (tok :: rest) outF inF cmds =
      (if tok = ">" then
        match rest with
        | [] => none
        | f :: rest2 => parse_tokens rest2 f inF cmds
      else if tok = "<" then
        match rest with
        | [] => none
        | f :: rest2 => parse_tokens rest2 outF f cmds
      else if tok = "&" then
        some ⟨cmds, inF, outF, false⟩
      else
        parse_tokens rest outF inF (cmds ++ [tok])) := by rw [parse_tokens.eq_def]

/-- Fueled form of `parse_tokens_argv_extends`, by strong induction on the
length of the token list (the loop consumes one or two tokens per step). -/
theorem parse_tokens_argv_extendsAux :
    ∀ (n : Nat) (toks : List String), toks.length ≤ n →
      ∀ (outF inF : String) (cmds : List String) (spec : CommandSpec),
        parse_tokens toks outF inF cmds = some spec → ∃ rest, spec.argv = cmds ++ rest := by
  intro n
  induction n with
  | zero =>
    intro toks hlen outF inF cmds spec h
    have htoks : toks = [] := List.length_eq_zero.mp (Nat.le_zero.mp hlen)
    subst htoks
    simp only [parse_tokens_nil, Option.some.injEq] at h
    exact ⟨[], by rw [← h]; simp⟩
  | succ n ih =>
    intro toks hlen outF inF cmds spec h
    cases toks with
    | nil =>
      simp only [parse_tokens_nil, Option.some.injEq] at h
      exact ⟨[], by rw [← h]; simp⟩
    | cons tok rest =>
      rw [parse_tokens_cons] at h
      split_ifs at h with h1 h2 h3
      · cases rest with
        | nil => simp at h
        | cons f rest2 =>
          refine ih rest2 ?_ f inF cmds spec h
          simp only [List.length_cons] at hlen
          omega
      · cases rest with
        | nil => simp at h
        | cons f rest2 =>
          refine ih rest2 ?_ outF f cmds spec h
          simp only [List.length_cons] at hlen
          omega
      · simp only [Option.some.injEq] at h
        exact ⟨[], by rw [← h]; simp⟩
      · have hlen2 : rest.length ≤ n := by
          simp only [List.length_cons] at hlen
          omega
        obtain ⟨r, hr⟩ := ih rest hlen2 outF inF (cmds ++ [tok]) spec h
        exact ⟨tok :: r, by rw [hr]; simp⟩

/-- The parse loop only appends to the command array: whatever it returns
extends the accumulator. -/
theorem parse_tokens_argv_extends (toks : List String) (outF inF : String)
    (cmds : List String) (spec : CommandSpec)
    (h : parse_tokens toks outF inF cmds = some spec) :
    ∃ rest, spec.argv = cmds ++ rest :=
  parse_tokens_argv_extendsAux toks.length toks (Nat.le_refl _) outF inF cmds spec h

/-- Defining equation of `parse_tokens_v2` on a nonempty token list. -/
theorem parse_tokens_v2_cons (tok : String) (rest : List String) (outF inF : String)
    (cmds : List String) :
    parse_tokens_v2 (tok :: rest) outF inF cmds =
      (if tok = ">" then
        match rest with
        | [] => none
        | f :: rest2 => parse_tokens_v2 rest2 f inF cmds
      else if tok = "<" then
        match rest with
        | [] => none
        | f :: rest2 => parse_tokens_v2 rest2 outF f cmds
      else if tok = "&" then
        some ⟨cmds, inF, outF, false⟩
      else
        parse_tokens_v2 rest outF inF (cmds ++ [tok])) := by
  rw [parse_tokens_v2.eq_def]

/-- Fueled proof that the two parse loops compute the same function. -/
theorem parse_tokens_v2_eqAux :
    ∀ (n : Nat) (toks : List String), toks.length ≤ n →
      ∀ (outF inF : String) (cmds : List String),
        parse_tokens_v2 toks outF inF cmds = parse_tokens toks outF inF cmds := by
  intro n
  induction n with
  | zero =>
    intro toks hlen outF inF cmds
    have htoks : toks = [] := List.length_eq_zero.mp (Nat.le_zero.mp hlen)
    subst htoks
    rfl
  | succ n ih =>
    intro toks hlen outF inF cmds
    cases toks with
    | nil => rfl
    | cons tok rest =>
      rw [parse_tokens_cons, parse_tokens_v2_cons]
      have hlen1 : rest.length ≤ n := by
        simp only [List.length_cons] at hlen
        omega
      by_cases h1 : tok = ">"
      · rw [if_pos h1, if_pos h1]
        cases rest with
        | nil => rfl
        | cons f rest2 =>
          refine ih rest2 ?_ f inF cmds
          simp only [List.length_cons] at hlen1
          omega
      · rw [if_neg h1, if_neg h1]
        by_cases h2 : tok = "<"
        · rw [if_pos h2, if_pos h2]
          cases rest with
          | nil => rfl
          | cons f rest2 =>
            refine ih rest2 ?_ outF f cmds
            simp only [List.length_cons] at hlen1
            omega
        · rw [if_neg h2, if_neg h2]
          by_cases h3 : tok = "&"
          · rw [if_pos h3, if_pos h3]
          · rw [if_neg h3, if_neg h3]
            exact ih rest hlen1 outF inF (cmds ++ [tok])

/-- The parse loop of `src/unnamed/part_000` computes the same function as
the one of `src/smallsh.c`. -/
theorem parse_tokens_v2_eq (toks : List String) (outF inF : String)
    (cmds : List String) :
    parse_tokens_v2 toks outF inF cmds = parse_tokens toks outF inF cmds :=
  parse_tokens_v2_eqAux toks.length toks (Nat.le_refl _) outF inF cmds

/-- The stored status after the `WNOHANG` reaping loop is the status of the
last zombie reaped, or the incoming status when nothing was reapable. -/
theorem wait_for_children_final_status (s : Nat) (ch : List (Nat × ChildState)) :
    (wait_for_children s ch).1 = (last_zombie_status ch).getD s := by
  induction ch generalizing s with
  | nil => rfl
  | cons c rest ih =>
    obtain ⟨pid, st⟩ := c
    cases st with
    | running => simp [wait_for_children, last_zombie_status, ih]
    | zombie z => simp [wait_for_children, last_zombie_status, ih]

/-- Every trace of the shell loop begins with a prompt. -/
theorem run_shell_events_head (s : Nat) (ls : List (String × IterEnv)) :
    (run_shell_events s ls).head? = some Event.prompt := by
  cases ls with
  | nil => rfl
  | cons p rest =>
    obtain ⟨l, env⟩ := p
    simp only [run_shell_events]
    cases h : run_iter s l env <;> simp

/-! ### Claim theorems -/

/-- Claim C1 (code_bug exhibit): on the line `"ls >"`, whose redirect
operator is the last token, the parse loop of `run_shell` reaches
`strcpy(output_filename, NULL)` — undefined behavior, modelled as `none` —
so no `CommandSpec` is built, no "missing filename" diagnostic is produced
and the shell does not proceed to the next prompt: the classification is
`crash`, not a reported validation failure. -/
theorem trailing_redirect_is_undefined_behavior :
    parse_line "ls >" = none ∧ classify_line "ls >" = Action.crash := by
  constructor
  · rfl
  · rfl

/-- Claim C2 (code_bug exhibit): for the signal-termination wait status 139
(SIGSEGV with a core dump, signal number `WTERMSIG 139 = 11`), `get_status`
prints the raw status value 139, not the numeric signal identifier 11. -/
theorem get_status_signal_prints_raw_status :
    WIFEXITED 139 = false ∧ WTERMSIG 139 = 11 ∧ WTERMSIG 139 ≠ 139
    ∧ get_status 139 = ["The process was terminated by a signal 139"] := by
  refine ⟨rfl, rfl, by decide, rfl⟩

/-- Claim C3 (counterexample): a concrete two-line session.  The foreground
command terminates with wait status 0 (exit code 0); the iteration's
background poll then reaps a background process with wait status 256 (exit
code 1), overwriting the stored status; the `status` built-in on the next
line renders exit code 1 — the background process's status, not the last
foreground status 0. -/
theorem status_builtin_reports_bg_status_cex :
    run_shell_events 0
        [("ls", ⟨42, true, 0, [(100, ChildState.zombie 256)]⟩),
         ("status", ⟨7, true, 0, []⟩)] =
      [Event.prompt, Event.forkedChild 42, Event.fgWait 42 0,
       Event.printed "Background process 100 closed",
       Event.printed "The process exited normally",
       Event.printed "The exit status was 1",
       Event.prompt,
       Event.printed "The process exited normally",
       Event.printed "The exit status was 1",
       Event.prompt, Event.exited 0]
    ∧ get_status 0 ≠ ["The process exited normally", "The exit status was 1"] := by
  refine ⟨rfl, by decide⟩

/-- Claim C3 (amended): the `status` built-in renders the shell's single
stored status variable, and that variable is the status of the most
recently observed child: a foreground wait stores its result, but every
background reap overwrites it, so it equals the last foreground status only
when no background process has been reaped since. -/
theorem status_builtin_renders_stored (status : Nat) (l : String) (env : IterEnv) :
    (classify_line l = Action.statusCmd →
      ∃ tail, iter_events (run_iter status l env) =
        (get_status status).map Event.printed ++ tail)
    ∧ (∀ spec, classify_line l = Action.launch spec → spec.fg = true →
        env.forkOk = true →
        ∃ evs, run_iter status l env =
          IterOutcome.next ((last_zombie_status env.osChildren).getD env.fgStatus) evs) := by
  constructor
  · intro h
    refine ⟨(wait_for_children status env.osChildren).2.2.map Event.printed, ?_⟩
    simp [run_iter, h, iter_reap, iter_events]
  · intro spec hc hfg hfork
    refine ⟨[Event.forkedChild env.pid, Event.fgWait env.pid env.fgStatus]
      ++ (wait_for_children env.fgStatus env.osChildren).2.2.map Event.printed, ?_⟩
    simp [run_iter, hc, hfg, hfork, iter_reap, wait_for_children_final_status]

/-- Witness for `status_builtin_renders_stored` at concrete inputs: the
`status` line with stored status 5, and the foreground command `ls` with a
reapable background zombie of status 256 overriding the foreground
status 7. -/
theorem status_builtin_renders_stored_witness :
    (∃ tail, iter_events (run_iter 5 "status" ⟨1, true, 0, []⟩) =
      (get_status 5).map Event.printed ++ tail)
    ∧ (∃ evs, run_iter 0 "ls" ⟨42, true, 7, [(100, ChildState.zombie 256)]⟩ =
        IterOutcome.next
          ((last_zombie_status [(100, ChildState.zombie 256)]).getD 7) evs) :=
  ⟨(status_builtin_renders_stored 5 "status" ⟨1, true, 0, []⟩).1 (by decide),
   (status_builtin_renders_stored 0 "ls"
      ⟨42, true, 7, [(100, ChildState.zombie 256)]⟩).2
     ⟨["ls"], "", "", true⟩ (by decide) rfl rfl⟩

/-- Claim C4 (counterexample): for a background command with an explicit
input redirect (`input_filename = "in.txt"`), the child opens `"/dev/null"`
— the `else` branch of `handle_fork_exec` ignores `input_filename` — rather
than leaving input inherited (`none`) as the claim's "otherwise" case
states. -/
theorem bg_input_redirect_ignored_cex :
    to_open false "in.txt" = some "/dev/null"
    ∧ to_open false "in.txt" ≠ none := by
  refine ⟨rfl, by decide⟩

/-- Claim C4 (amended): the child's input source is: the named file, opened
read-only, when foreground with a nonempty `input_filename`; inherited when
foreground without one; and always `"/dev/null"` in the background,
regardless of any explicit input redirect.  A failing `open` or `dup2`
makes the child (and only the child) exit with status 1. -/
theorem input_resolution_amended :
    (∀ name, to_open true name = if name = "" then none else some name)
    ∧ (∀ name, to_open false name = some "/dev/null")
    ∧ (∀ fg name ops, child_setup_input fg name ops = Except.ok none ↔
        to_open fg name = none)
    ∧ (∀ fg name ops path, to_open fg name = some path → ops.open_ok path = false →
        child_setup_input fg name ops = Except.error 1)
    ∧ (∀ fg name ops path, to_open fg name = some path → ops.open_ok path = true →
        ops.dup2_ok 0 = false → child_setup_input fg name ops = Except.error 1) := by
  refine ⟨?_, ?_, ?_, ?_, ?_⟩
  · intro name
    by_cases h : name = "" <;> simp [to_open, h]
  · intro name
    rfl
  · intro fg name ops
    cases h : to_open fg name with
    | none => simp [child_setup_input, h]
    | some path =>
      simp only [child_setup_input, h]
      split_ifs <;> simp
  · intro fg name ops path h1 h2
    simp [child_setup_input, h1, h2]
  · intro fg name ops path h1 h2 h3
    simp [child_setup_input, h1, h2, h3]

/-- Witness for `input_resolution_amended`: a background child whose `open`
of `"/dev/null"` fails exits with status 1. -/
theorem input_resolution_amended_witness :
    child_setup_input false "x" ⟨fun _ => false, fun _ => true⟩ = Except.error 1 :=
  input_resolution_amended.2.2.2.1 false "x" ⟨fun _ => false, fun _ => true⟩
    "/dev/null" rfl rfl

/-- Claim C5 (code_bug exhibit): `exit_shell` drains via
`waitpid(-1, ..., WNOHANG)`, which merely polls.  With one still-running
background child, the poll returns nothing, the shell exits immediately
with its current status, and the child is left outstanding (orphaned), not
waited on. -/
theorem exit_shell_leaves_running_child :
    exit_shell 0 [(100, ChildState.running)] = (0, [(100, ChildState.running)], [])
    ∧ (exit_shell 0 [(100, ChildState.running)]).2.1 ≠ [] := by
  refine ⟨rfl, by decide⟩

/-- Claim C6 (code_bug exhibit): after a `fork` failure the shell sets its
status to 1, but the drain in `exit_shell` overwrites it with each reaped
child's status: with one zombie of wait status 0 the shell terminates with
exit status 0, not a non-zero status.  And with a still-running background
child, the `WNOHANG` poll leaves it un-reaped. -/
theorem fork_failure_can_exit_zero :
    handle_fork_fail [(7, ChildState.zombie 0)] =
      (0, [], ["error in fork", "Background process 7 closed",
               "The process exited normally", "The exit status was 0"])
    ∧ (handle_fork_fail [(7, ChildState.zombie 0)]).1 = 0
    ∧ (handle_fork_fail [(9, ChildState.running)]).2.1 = [(9, ChildState.running)] := by
  refine ⟨rfl, rfl, rfl⟩

/-- Claim C7: for a foreground launch (no `&`), the parent performs the
blocking `waitpid` on exactly the forked pid, and everything of the rest of
the session — in particular the next prompt, which heads every trace —
comes strictly after that wait event. -/
theorem fg_wait_precedes_next_prompt (status : Nat) (l : String) (env : IterEnv)
    (spec : CommandSpec) (rest : List (String × IterEnv))
    (hc : classify_line l = Action.launch spec) (hfg : spec.fg = true)
    (hfork : env.forkOk = true) :
    run_shell_events status ((l, env) :: rest) =
      Event.prompt :: Event.forkedChild env.pid :: Event.fgWait env.pid env.fgStatus ::
        ((wait_for_children env.fgStatus env.osChildren).2.2.map Event.printed
          ++ run_shell_events (wait_for_children env.fgStatus env.osChildren).1 rest)
    ∧ (run_shell_events (wait_for_children env.fgStatus env.osChildren).1 rest).head? =
        some Event.prompt := by
  constructor
  · simp [run_shell_events, run_iter, hc, hfg, hfork, iter_reap]
  · exact run_shell_events_head _ _

/-- Witness for `fg_wait_precedes_next_prompt`: the single foreground line
`"ls"` with pid 42 and no background children. -/
theorem fg_wait_precedes_next_prompt_witness :
    run_shell_events 0 [("ls", ⟨42, true, 0, []⟩)] =
      Event.prompt :: Event.forkedChild 42 :: Event.fgWait 42 0 ::
        ((wait_for_children 0 []).2.2.map Event.printed
          ++ run_shell_events (wait_for_children 0 []).1 [])
    ∧ (run_shell_events (wait_for_children 0 []).1 []).head? = some Event.prompt :=
  fg_wait_precedes_next_prompt 0 "ls" ⟨42, true, 0, []⟩ ⟨["ls"], "", "", true⟩ []
    (by decide) rfl rfl

/-- Claim C8 (counterexample): a line whose first token begins with `#` is
not always classified as a comment: on `"# a comment >"` the trailing `>`
makes the parse loop hit `strcpy(..., NULL)` (undefined behavior, `crash`)
before the comment check is ever reached. -/
theorem comment_with_trailing_redirect_cex :
    classify_line "# a comment >" = Action.crash
    ∧ Action.crash ≠ Action.ignore := by
  refine ⟨rfl, by decide⟩

/-- Claim C8 (amended): every blank line is classified as empty and every
line whose first token begins with `#` and whose parse does not hit the
trailing-redirect undefined behavior is classified as a comment; neither
reaches the launcher, and every `CommandSpec` that does reach the launcher
has a non-empty `argv`. -/
theorem empty_comment_filtered_and_argv_nonempty :
    (∀ l spec, classify_line l = Action.launch spec → spec.argv ≠ [])
    ∧ (∀ l, tokenize l = [] → classify_line l = Action.ignore)
    ∧ (∀ l t ts spec, tokenize l = t :: ts → t.front = '#' →
        parse_line l = some spec → classify_line l = Action.ignore) := by
  refine ⟨?_, ?_, ?_⟩
  · intro l spec h
    unfold classify_line at h
    split at h
    · exact absurd h (by simp)
    · split at h
      · exact absurd h (by simp)
      · rename_i heq
        split_ifs at h
        injection h with h4
        rw [← h4, heq]
        simp
  · intro l h
    simp [classify_line, parse_line, h, parse_tokens_nil]
  · intro l t ts spec htok hfront hp
    have h1 : t ≠ ">" := by
      intro he
      rw [he] at hfront
      exact absurd hfront (by decide)
    have h2 : t ≠ "<" := by
      intro he
      rw [he] at hfront
      exact absurd hfront (by decide)
    have h3 : t ≠ "&" := by
      intro he
      rw [he] at hfront
      exact absurd hfront (by decide)
    have hstep : parse_tokens (t :: ts) "" "" [] = parse_tokens ts "" "" [t] := by
      rw [parse_tokens_cons]
      simp [h1, h2, h3]
    unfold parse_line at hp
    rw [htok, hstep] at hp
    obtain ⟨rest, hargv⟩ := parse_tokens_argv_extends ts "" "" [t] spec hp
    simp only [List.singleton_append] at hargv
    unfold classify_line parse_line
    rw [htok, hstep, hp]
    simp [hargv, hfront]

/-- Witness for `empty_comment_filtered_and_argv_nonempty`: the launched
spec of `"ls"` has non-empty `argv`; `""` is classified empty;
`"# a comment"` is classified as a comment. -/
theorem empty_comment_filtered_witness :
    (CommandSpec.mk ["ls"] "" "" true).argv ≠ []
    ∧ classify_line "" = Action.ignore
    ∧ classify_line "# a comment" = Action.ignore :=
  ⟨empty_comment_filtered_and_argv_nonempty.1 "ls" ⟨["ls"], "", "", true⟩ (by decide),
   empty_comment_filtered_and_argv_nonempty.2.1 "" rfl,
   empty_comment_filtered_and_argv_nonempty.2.2 "# a comment" "#" ["a", "comment"]
     ⟨["#", "a", "comment"], "", "", true⟩ rfl rfl rfl⟩

/-- Claim C9: the builder applied to `"wc < in.txt > out.txt"` yields
`argv = ["wc"]`, `input_filename = "in.txt"`, `output_filename = "out.txt"`
and the foreground flag set (`background = false`). -/
theorem roundtrip_wc_redirects :
    parse_line "wc < in.txt > out.txt" =
      some ⟨["wc"], "in.txt", "out.txt", true⟩
    ∧ (CommandSpec.mk ["wc"] "in.txt" "out.txt" true).background = false := by
  refine ⟨rfl, rfl⟩

/-- Claim C10 (counterexample): the two source files are not behaviorally
equivalent: after a foreground wait `src/unnamed/part_000` prints a status
report while `src/smallsh.c` prints nothing; the output-file creation modes
differ (`0744` vs `0644`); and the background-launch report lines differ in
capitalization. -/
theorem shell_versions_differ_cex :
    fg_wait_report_v2 0 ≠ fg_wait_report 0
    ∧ output_open_mode ≠ output_open_mode_v2
    ∧ bg_launch_report 5 ≠ bg_launch_report_v2 5 := by
  refine ⟨by decide, by decide, by decide⟩

/-- Claim C10 (amended): the two shells agree on parsing and on status
rendering, and differ in exactly the three reported places: the
post-foreground-wait report (`get_status` output vs nothing), the output
file mode (`0644` vs `0744`), and the capitalization of the
background-launch report. -/
theorem shell_versions_equiv_mod_reports :
    (∀ l, parse_line_v2 l = parse_line l)
    ∧ (∀ s, get_status_v2 s = get_status s)
    ∧ (∀ st, fg_wait_report_v2 st = get_status st ∧ fg_wait_report st = [])
    ∧ (output_open_mode = 0o744 ∧ output_open_mode_v2 = 0o644)
    ∧ (∀ pid, bg_launch_report pid = "background process id number " ++ toString pid
        ∧ bg_launch_report_v2 pid = "Background process id number " ++ toString pid) := by
  refine ⟨?_, fun s => rfl, fun st => ⟨rfl, rfl⟩, ⟨rfl, rfl⟩, fun pid => ⟨rfl, rfl⟩⟩
  intro l
  unfold parse_line_v2 parse_line
  exact parse_tokens_v2_eq (tokenize l) "" "" []

end Smallsh

